import Mathlib

/-!
Verification of the Geforce-Hybrid-Capture capture-session controller
(`src/launcher.py`) against its natural-language specification.

The launcher is embedded shallowly: each Python function the claims touch
becomes a Lean function over explicit state.  The persisted configuration
file becomes a `FileState`; the module-level mutable recording flags from
`scripts.temporary` become a `RecState`; the interactive menu handlers of
`configure_settings` become a step function on a `CState`.

The repository imports `scripts.temporary` (parameter catalogs, recording
flags) and `scripts.recorder` (the capture backend: `init_nvidia_apis`,
`start_capture`, `stop_capture`, `cleanup`), but those two files are not
part of the sources under verification.  Catalog contents are therefore
kept as parameters, and backend behaviour is modelled from the spec where
noted in the doc comments below.
-/

namespace Launcher

/-- A resolution entry, mirroring the `{width, height}` dictionaries used in
`config['resolution']` and the `temporary.resolutions` catalog. -/
structure Resolution where
  width : Nat
  height : Nat
  deriving DecidableEq, Repr

/-- The persisted session configuration, mirroring the JSON record in
`data/configuration.json` as accessed by `launcher.py`.  Keys read through
`config.get(key, default)` in the source may be absent and are modelled as
`Option`; `resolution` and `codec` are accessed with `config[...]` and are
modelled as always present. -/
structure Config where
  resolution : Resolution
  fps : Option Int
  codec : String
  bitrate : Option String
  preset : Option String
  output_path : String
  deriving DecidableEq, Repr

/-- The state of the persisted record `data/configuration.json`: absent,
present but not parseable as JSON, or present and valid. -/
inductive FileState where
  | missing : FileState
  | malformed : FileState
  | valid : Config → FileState
  deriving DecidableEq, Repr

/-- Outcome of `load_configuration` (launcher.py lines 10-20): a missing
file is caught (`FileNotFoundError`) and the process exits with code 1
after printing an error; a file that exists but is not valid JSON makes
`json.load` raise `json.JSONDecodeError`, which no handler catches, so the
exception propagates (`parseError`); otherwise the parsed record is
returned. -/
inductive LoadResult where
  | ok : Config → LoadResult
  | exitProcess : Nat → LoadResult
  | parseError : LoadResult
  deriving DecidableEq, Repr

/-- Embedding of `load_configuration` (launcher.py lines 10-20). -/
def load_configuration : FileState → LoadResult
  | FileState.missing => LoadResult.exitProcess 1
  | FileState.malformed => LoadResult.parseError
  | FileState.valid c => LoadResult.ok c

/-- Embedding of `save_configuration` (launcher.py lines 22-27): overwrites
the persisted record with the given configuration. -/
def save_configuration (config : Config) : FileState :=
  FileState.valid config

/-- The transient recording session: the module-level `is_recording` and
`recording_start_time` globals of `scripts.temporary` as used by
`launcher.py`.  `active` records the configuration snapshot the backend
was started with.  Modelled from the spec: `scripts/recorder.py` is not
among the sources, and the spec states the backend captures with a
snapshot of the configuration taken at `startRecording` time. -/
structure RecState where
  is_recording : Bool
  recording_start_time : Option Nat
  active : Option Config
  deriving DecidableEq, Repr

/-- The initial recording session at process start: Idle, no start time. -/
def initialRecState : RecState :=
  { is_recording := false, recording_start_time := none, active := none }

/-- Calls made against the capture backend (`scripts.recorder`) and the
final resource release, as observable from `launcher.py`. -/
inductive Action where
  | startCapture : Config → Action
  | stopCapture : Bool → Action
  | cleanup : Action
  deriving DecidableEq, Repr

/-- Messages printed by the controller operations, tagged by the `print`
statements of `launcher.py`. -/
inductive Msg where
  | recordingStarted : Msg
  | alreadyRecording : Msg
  | recordingStopped : Msg
  | notCurrentlyRecording : Msg
  | backendStartFailure : Msg
  | resolutionSet : Resolution → Msg
  | codecSet : String → Msg
  | fpsSet : Int → Msg
  | fpsOutOfRange : Msg
  | invalidFpsInput : Msg
  | bitrateSet : String → Msg
  | presetSet : String → Msg
  | invalidChoice : Msg
  | backToMain : Msg
  deriving DecidableEq, Repr

/-- Embedding of `start_recording` (launcher.py lines 29-40).  The guard is
`if not temporary.is_recording`.  In the guarded branch the source calls
`start_capture(config)` first and only then sets the flags.  Modelled from
the spec for the backend part: `scripts/recorder.py` is absent, the spec
gives `start(configuration) -> success/failure` with the requirement that
on backend failure the state remains Idle and the failure is surfaced;
`ok` is the backend outcome, and on failure the flag assignments are never
reached, leaving the session state unchanged. -/
def start_recording (config : Config) (ok : Bool) (now : Nat) (s : RecState) :
    RecState × List Action × Msg :=
  if s.is_recording = false then
    if ok then
      ({ is_recording := true, recording_start_time := some now,
         active := some config },
       [Action.startCapture config], Msg.recordingStarted)
    else
      (s, [Action.startCapture config], Msg.backendStartFailure)
  else
    (s, [], Msg.alreadyRecording)

/-- Embedding of `stop_recording` (launcher.py lines 42-53).  The guard is
`if temporary.is_recording`.  In the guarded branch the source calls
`stop_capture()` and then unconditionally clears both flags, ignoring the
backend outcome.  Modelled from the spec for the backend part:
`scripts/recorder.py` is absent, the spec gives `stop() -> success/failure`
as a best-effort call whose outcome must not block the revert to Idle;
`ok` is that outcome and it is recorded in the action trace. -/
def stop_recording (ok : Bool) (s : RecState) : RecState × List Action × Msg :=
  if s.is_recording then
    ({ is_recording := false, recording_start_time := none, active := none },
     [Action.stopCapture ok], Msg.recordingStopped)
  else
    (s, [], Msg.notCurrentlyRecording)

/-- One controller call in a start/stop call sequence.  A `startCall`
carries the backend outcome the capture backend would report if invoked,
and the wall-clock time of the call; a `stopCall` carries the backend
outcome of `stop_capture`. -/
inductive Event where
  | startCall : Bool → Nat → Event
  | stopCall : Bool → Event
  deriving DecidableEq, Repr

/-- Apply one call to the recording session, using the embedded
`start_recording` and `stop_recording`. -/
def recStep (config : Config) (s : RecState) : Event → RecState
  | Event.startCall ok now => (start_recording config ok now s).1
  | Event.stopCall ok => (stop_recording ok s).1

/-- Run a finite call sequence from the initial Idle session. -/
def runEvents (config : Config) (evts : List Event) : RecState :=
  evts.foldl (recStep config) initialRecState

/-- Spec-side predicate, read off the call sequence alone, most recent call
first: the session is Recording exactly when, walking backwards, no stop
has intervened and some start in that suffix carried a successful backend
outcome (the most recent start that actually reached the backend). -/
def lastOpenStart : List Event → Bool
  | [] => false
  | Event.stopCall _ :: _ => false
  | Event.startCall ok _ :: rest => ok || lastOpenStart rest

/-- The spec predicate on a call sequence in chronological order. -/
def specRecordingAfter (evts : List Event) : Bool :=
  lastOpenStart evts.reverse

/-- The parameter catalogs held by `scripts.temporary` and used by
`configure_settings`: `temporary.resolutions`, `temporary.codecs`,
`temporary.bitrates`, `temporary.nvenc_presets`.  The file defining their
contents is not among the sources, so the lists are carried as data; the
spec fixes only that each is a static ordered list of fixed cardinality. -/
structure Catalogs where
  resolutions : List Resolution
  codecs : List String
  bitrates : List String
  nvenc_presets : List String
  deriving Repr

/-- Position of the first occurrence of `a` in `l`, if present.  Used to
embed both the index-scanning loop over `temporary.resolutions` (lines
78-81) and Python `list.index` (lines 83-92), which return the first
matching index. -/
def firstIndexOf? {α : Type} [DecidableEq α] : List α → α → Option Nat
  | [], _ => none
  | x :: rest, a =>
      if x = a then some 0 else (firstIndexOf? rest a).map (· + 1)

/-- Containment of `needle` as a contiguous subsequence of the second
list: at each position, either `needle` starts here or it occurs further
right. -/
def hasSubSeq (needle : List Char) : List Char → Bool
  | [] => needle.isEmpty
  | c :: rest => needle.isPrefixOf (c :: rest) || hasSubSeq needle rest

/-- The hardware-acceleration marker test `'nvenc' in config['codec']`
(Python substring containment) used at launcher.py lines 102 and 143. -/
def hasNvenc (codec : String) : Bool :=
  hasSubSeq "nvenc".toList codec.toList

/-- The local state of one `configure_settings` session: the in-memory
configuration, the four cycling indices, and the persisted record. -/
structure CState where
  cfg : Config
  resIdx : Nat
  codecIdx : Nat
  bitrateIdx : Nat
  presetIdx : Nat
  store : FileState
  deriving DecidableEq, Repr

/-- Index seeding at entry to `configure_settings` (launcher.py lines
72-92): each index starts at 0 and is replaced by the first matching
catalog position when the current value is found; `bitrate` and `preset`
are read with defaults `'5M'` and `'medium'`. -/
def enterConfigure (cats : Catalogs) (config : Config) (store : FileState) :
    CState :=
  { cfg := config
    resIdx := (firstIndexOf? cats.resolutions config.resolution).getD 0
    codecIdx := (firstIndexOf? cats.codecs config.codec).getD 0
    bitrateIdx := (firstIndexOf? cats.bitrates (config.bitrate.getD "5M")).getD 0
    presetIdx :=
      (firstIndexOf? cats.nvenc_presets (config.preset.getD "medium")).getD 0
    store := store }

/-- One iteration of the `configure_settings` menu loop (launcher.py lines
94-155), given the menu choice string and, for choice `"3"`, the result of
parsing the FPS input (`none` when `int(...)` raises `ValueError`).  The
returned `Bool` is `true` when the loop continues and `false` on `break`.
Choice `"5"` cycles the NVENC preset only when the active codec contains
`nvenc`, and otherwise is the `Back to Main Menu` entry; choice `"6"` is
`Back to Main Menu` only when the preset entry is shown (`max_choice == 6`,
launcher.py line 151) and falls through to `Invalid choice` otherwise. -/
def configure_step (cats : Catalogs) (choice : String) (fpsInput : Option Int)
    (st : CState) : CState × Bool × Msg :=
  if choice = "1" then
    let i := (st.resIdx + 1) % cats.resolutions.length
    let r := cats.resolutions.getD i { width := 0, height := 0 }
    let cfg := { st.cfg with resolution := r }
    ({ st with resIdx := i, cfg := cfg, store := save_configuration cfg },
     true, Msg.resolutionSet r)
  else if choice = "2" then
    let i := (st.codecIdx + 1) % cats.codecs.length
    let c := cats.codecs.getD i ""
    let cfg := { st.cfg with codec := c }
    ({ st with codecIdx := i, cfg := cfg, store := save_configuration cfg },
     true, Msg.codecSet c)
  else if choice = "3" then
    match fpsInput with
    | none => (st, true, Msg.invalidFpsInput)
    | some fps =>
        if 1 ≤ fps ∧ fps ≤ 120 then
          let cfg := { st.cfg with fps := some fps }
          ({ st with cfg := cfg, store := save_configuration cfg },
           true, Msg.fpsSet fps)
        else
          (st, true, Msg.fpsOutOfRange)
  else if choice = "4" then
    let i := (st.bitrateIdx + 1) % cats.bitrates.length
    let b := cats.bitrates.getD i ""
    let cfg := { st.cfg with bitrate := some b }
    ({ st with bitrateIdx := i, cfg := cfg, store := save_configuration cfg },
     true, Msg.bitrateSet b)
  else if choice = "5" then
    if hasNvenc st.cfg.codec then
      let i := (st.presetIdx + 1) % cats.nvenc_presets.length
      let p := cats.nvenc_presets.getD i ""
      let cfg := { st.cfg with preset := some p }
      ({ st with presetIdx := i, cfg := cfg, store := save_configuration cfg },
       true, Msg.presetSet p)
    else
      (st, false, Msg.backToMain)
  else if choice = "6" then
    if hasNvenc st.cfg.codec then
      (st, false, Msg.backToMain)
    else
      (st, true, Msg.invalidChoice)
  else
    (st, true, Msg.invalidChoice)

/-- Repeated selection of the same menu choice (with unparsable FPS input
for choice `"3"`, which that choice never consumes here). -/
def configure_iter (cats : Catalogs) (choice : String) :
    Nat → CState → CState
  | 0, st => st
  | k + 1, st => configure_iter cats choice k (configure_step cats choice none st).1

/-- The full application state seen by the main menu: the recording session
globals of `scripts.temporary` together with a `configure_settings`
session state. -/
structure AppState where
  sess : RecState
  conf : CState
  deriving Repr

/-- A `configure_settings` iteration lifted to the full application state.
The body of `configure_settings` (launcher.py lines 66-155) reads and
writes only the configuration, the cycling indices and the persisted
record; it never touches `temporary.is_recording` or
`temporary.recording_start_time`, so the recording session passes through
unchanged. -/
def configure_full (cats : Catalogs) (choice : String) (fpsInput : Option Int)
    (a : AppState) : AppState × Bool × Msg :=
  let r := configure_step cats choice fpsInput a.conf
  ({ sess := a.sess, conf := r.1 }, r.2.1, r.2.2)

/-- What happens before the main menu loop is reached (launcher.py lines
193-215): `init_nvidia_apis()` failing exits with code 1; then
`load_configuration()` runs, whose missing-file branch exits with code 1
and whose malformed branch lets the JSON parse exception propagate
(terminating the process with a traceback); only with a valid record does
control reach the menu loop. -/
inductive StartupOutcome where
  | exitedNonZero : Nat → StartupOutcome
  | crashed : StartupOutcome
  | menuEntered : Config → StartupOutcome
  deriving DecidableEq, Repr

/-- Embedding of the startup portion of `main` (launcher.py lines 193-215),
with `initOk` the outcome of `init_nvidia_apis()`. -/
def mainStartup (initOk : Bool) (fs : FileState) : StartupOutcome :=
  if initOk = false then
    StartupOutcome.exitedNonZero 1
  else
    match load_configuration fs with
    | LoadResult.ok c => StartupOutcome.menuEntered c
    | LoadResult.exitProcess n => StartupOutcome.exitedNonZero n
    | LoadResult.parseError => StartupOutcome.crashed

/-- Whether a startup outcome presented the session menu. -/
def menuWasShown : StartupOutcome → Bool
  | StartupOutcome.menuEntered _ => true
  | _ => false

/-- Whether a startup outcome is an uncaught-exception crash rather than a
handled message-and-exit. -/
def isCrash : StartupOutcome → Bool
  | StartupOutcome.crashed => true
  | _ => false

/-- The ways the launcher process can terminate, as found in the source:
the menu `Exit` branch (choice `"5"`, launcher.py lines 241-247), the
`sys.exit(1)` calls during startup (lines 205 and 20), an exception that
propagates out of `main` (launcher.py installs no handler or `finally`
around the loop), and `KeyboardInterrupt` (likewise uncaught in
launcher.py, unlike installer.py which catches it). -/
inductive ExitPath where
  | menuChoice5 : ExitPath
  | startupExit : ExitPath
  | unhandledError : ExitPath
  | keyboardInterrupt : ExitPath
  deriving DecidableEq, Repr

/-- Embedding of the menu `Exit` branch (launcher.py lines 241-247): if
`temporary.is_recording` then `stop_recording()` runs, then `cleanup()` is
called and the loop breaks.  `stopOk` is the backend outcome of the
`stop_capture` call inside `stop_recording`. -/
def main_exit_choice5 (stopOk : Bool) (s : RecState) : RecState × List Action :=
  if s.is_recording then
    ((stop_recording stopOk s).1, (stop_recording stopOk s).2.1 ++ [Action.cleanup])
  else
    (s, [Action.cleanup])

/-- Controller and backend actions performed on a given exit path.
`launcher.py` calls `cleanup()` only in the choice-`"5"` branch of the
menu loop; there is no `try/finally`, no `atexit` registration and no
`KeyboardInterrupt` handler in the module, so every other way out of the
process performs no stop and no cleanup. -/
def exit_run (p : ExitPath) (stopOk : Bool) (s : RecState) :
    RecState × List Action :=
  match p with
  | ExitPath.menuChoice5 => main_exit_choice5 stopOk s
  | _ => (s, [])

/-! ### Concrete instances

Concrete values used to instantiate the parametric theorems.  The
configuration record and the resolution catalog are the ones named in the
spec scenario (fresh record with 1920x1080, fps 30, codec h264_nvenc,
bitrate 5M, preset medium; resolution catalog of three entries); the other
catalogs hold representative members named in the spec. -/

/-- The spec-scenario configuration record. -/
def sampleConfig : Config :=
  { resolution := { width := 1920, height := 1080 }
    fps := some 30
    codec := "h264_nvenc"
    bitrate := some "5M"
    preset := some "medium"
    output_path := "Output" }

/-- The same record with the software codec libx264 active. -/
def sampleSwConfig : Config :=
  { sampleConfig with codec := "libx264" }

/-- Catalogs with the spec-scenario resolution list. -/
def sampleCats : Catalogs :=
  { resolutions :=
      [{ width := 1920, height := 1080 }, { width := 1280, height := 720 },
       { width := 2560, height := 1440 }]
    codecs := ["libx264", "h264_nvenc"]
    bitrates := ["5M", "10M"]
    nvenc_presets := ["medium", "fast"] }

/-- A recording session that is currently Recording. -/
def recSampleState : RecState :=
  { is_recording := true, recording_start_time := some 5,
    active := some sampleConfig }

/-- A `configure_settings` session over the scenario record. -/
def sampleCState : CState :=
  enterConfigure sampleCats sampleConfig (save_configuration sampleConfig)

/-- A `configure_settings` session with the software codec active. -/
def sampleSwCState : CState :=
  enterConfigure sampleCats sampleSwConfig (save_configuration sampleSwConfig)

/-! ### Claims -/

/-- Claim C2: stopping while Recording always transitions the session to
Idle and clears the start timestamp, for either backend outcome of the
stop call, and the backend stop is invoked with that outcome recorded. -/
theorem C2_stop_unsticks_recording (ok : Bool) (s : RecState)
    (h : s.is_recording = true) :
    (stop_recording ok s).1.is_recording = false ∧
    (stop_recording ok s).1.recording_start_time = none ∧
    (stop_recording ok s).2.1 = [Action.stopCapture ok] := by
  simp [stop_recording, h]

/-- Witness for C2 at a concrete Recording session with a failing backend
stop. -/
theorem C2_stop_unsticks_recording_witness :
    (stop_recording false recSampleState).1.is_recording = false ∧
    (stop_recording false recSampleState).1.recording_start_time = none ∧
    (stop_recording false recSampleState).2.1 = [Action.stopCapture false] :=
  C2_stop_unsticks_recording false recSampleState rfl

/-- Claim C3: starting while already Recording leaves the session (and so
the start timestamp) unchanged, performs no backend call and reports
already recording; stopping while Idle leaves the session unchanged,
performs no backend call and reports not currently recording. -/
theorem C3_guarded_noops (config : Config) (ok : Bool) (now : Nat)
    (s s' : RecState) (h : s.is_recording = true)
    (h' : s'.is_recording = false) :
    start_recording config ok now s = (s, [], Msg.alreadyRecording) ∧
    stop_recording ok s' = (s', [], Msg.notCurrentlyRecording) := by
  constructor
  · simp [start_recording, h]
  · simp [stop_recording, h']

/-- Witness for C3 at a concrete Recording session and the initial Idle
session. -/
theorem C3_guarded_noops_witness :
    start_recording sampleConfig true 7 recSampleState
      = (recSampleState, [], Msg.alreadyRecording) ∧
    stop_recording true initialRecState
      = (initialRecState, [], Msg.notCurrentlyRecording) :=
  C3_guarded_noops sampleConfig true 7 recSampleState initialRecState rfl rfl

/-- Counterexample to claim C4 as stated: a persisted record that exists
but cannot be parsed does not produce a handled ConfigurationMalformed
message with a safe state; the JSON parse exception propagates out of
`load_configuration` and the process crashes. -/
theorem C4_counterexample :
    load_configuration FileState.malformed = LoadResult.parseError ∧
    isCrash (mainStartup true FileState.malformed) = true :=
  ⟨rfl, rfl⟩

/-- Claim C4 (amended): a missing persisted record fails as
ConfigurationNotFound and the process exits with code 1 without presenting
any menu; a record that exists but cannot be parsed raises an unhandled
parse error that crashes the process rather than yielding a handled
distinct condition. -/
theorem C4_missing_config_exits :
    load_configuration FileState.missing = LoadResult.exitProcess 1 ∧
    mainStartup true FileState.missing = StartupOutcome.exitedNonZero 1 ∧
    menuWasShown (mainStartup true FileState.missing) = false ∧
    mainStartup true FileState.malformed = StartupOutcome.crashed :=
  ⟨rfl, rfl, rfl, rfl⟩

/-- Counterexample to claim C8 as stated: on an exit via an unhandled
failure the process performs no controller action at all while a recording
is active; in particular the resource-release call is never made. -/
theorem C8_counterexample :
    exit_run ExitPath.unhandledError true recSampleState
      = (recSampleState, []) :=
  rfl

/-- Claim C8 (amended): only the menu Exit branch performs the shutdown
sequence: there, if Recording, the backend stop runs first and the session
reverts to Idle, then the resource release is called unconditionally; the
startup-exit, unhandled-error and keyboard-interrupt exits perform neither
the stop nor the release. -/
theorem C8_cleanup_only_on_menu_exit (stopOk : Bool) (s : RecState) :
    (s.is_recording = true →
      (exit_run ExitPath.menuChoice5 stopOk s).2
        = [Action.stopCapture stopOk, Action.cleanup] ∧
      (exit_run ExitPath.menuChoice5 stopOk s).1.is_recording = false) ∧
    (s.is_recording = false →
      (exit_run ExitPath.menuChoice5 stopOk s).2 = [Action.cleanup]) ∧
    (exit_run ExitPath.startupExit stopOk s).2 = [] ∧
    (exit_run ExitPath.unhandledError stopOk s).2 = [] ∧
    (exit_run ExitPath.keyboardInterrupt stopOk s).2 = [] := by
  refine ⟨?_, ?_, rfl, rfl, rfl⟩
  · intro h
    simp [exit_run, main_exit_choice5, stop_recording, h]
  · intro h
    simp [exit_run, main_exit_choice5, h]

/-- Witness for the amended C8 at a concrete Recording session and the
initial Idle session. -/
theorem C8_cleanup_only_on_menu_exit_witness :
    (exit_run ExitPath.menuChoice5 false recSampleState).2
      = [Action.stopCapture false, Action.cleanup] ∧
    (exit_run ExitPath.menuChoice5 false initialRecState).2
      = [Action.cleanup] ∧
    (exit_run ExitPath.unhandledError false recSampleState).2 = [] :=
  ⟨((C8_cleanup_only_on_menu_exit false recSampleState).1 rfl).1,
   (C8_cleanup_only_on_menu_exit false initialRecState).2.1 rfl,
   (C8_cleanup_only_on_menu_exit false recSampleState).2.2.2.1⟩

/-- Claim C10: when the FPS input cannot be parsed as an integer at all,
the menu iteration leaves the whole configuration session (configuration,
indices and persisted record) unchanged, keeps the loop running rather
than crashing, and reports the invalid-input message, which is distinct
from the out-of-range message. -/
theorem C10_unparsable_fps_input (cats : Catalogs) (st : CState) :
    (configure_step cats "3" none st).1 = st ∧
    (configure_step cats "3" none st).2.1 = true ∧
    (configure_step cats "3" none st).2.2 = Msg.invalidFpsInput ∧
    (Msg.invalidFpsInput == Msg.fpsOutOfRange) = false := by
  refine ⟨?_, ?_, ?_, by rfl⟩ <;> simp [configure_step]

/-- Claim C6: an FPS value outside [1, 120] is rejected, leaving the whole
configuration session (configuration and persisted record) unchanged with
the out-of-range message; a value inside [1, 120] updates the frame rate
and persists the updated record, so loading the persisted record yields
exactly the updated configuration. -/
theorem C6_set_framerate (cats : Catalogs) (st : CState) (v : Int) :
    ((v < 1 ∨ 120 < v) →
      (configure_step cats "3" (some v) st).1 = st ∧
      (configure_step cats "3" (some v) st).2.2 = Msg.fpsOutOfRange) ∧
    (1 ≤ v → v ≤ 120 →
      (configure_step cats "3" (some v) st).1.cfg.fps = some v ∧
      load_configuration ((configure_step cats "3" (some v) st).1.store)
        = LoadResult.ok ((configure_step cats "3" (some v) st).1.cfg)) := by
  constructor
  · intro h
    have hv : ¬ (1 ≤ v ∧ v ≤ 120) := by omega
    simp [configure_step, hv]
  · intro h1 h2
    have hv : 1 ≤ v ∧ v ≤ 120 := ⟨h1, h2⟩
    simp [configure_step, hv, save_configuration, load_configuration]

/-- Witness for C6 at values 0, 121 and 60 on the scenario session. -/
theorem C6_set_framerate_witness :
    (configure_step sampleCats "3" (some 0) sampleCState).1 = sampleCState ∧
    (configure_step sampleCats "3" (some 121) sampleCState).1 = sampleCState ∧
    (configure_step sampleCats "3" (some 60) sampleCState).1.cfg.fps
      = some 60 ∧
    load_configuration
        ((configure_step sampleCats "3" (some 60) sampleCState).1.store)
      = LoadResult.ok ((configure_step sampleCats "3" (some 60) sampleCState).1.cfg) :=
  ⟨((C6_set_framerate sampleCats sampleCState 0).1 (Or.inl (by norm_num))).1,
   ((C6_set_framerate sampleCats sampleCState 121).1 (Or.inr (by norm_num))).1,
   ((C6_set_framerate sampleCats sampleCState 60).2 (by norm_num) (by norm_num)).1,
   ((C6_set_framerate sampleCats sampleCState 60).2 (by norm_num) (by norm_num)).2⟩

/-- Cycling the codec (menu choice 2) never touches the stored preset
value or the preset cycling index. -/
theorem configure_step_codec_preserves_preset (cats : Catalogs) (st : CState) :
    (configure_step cats "2" none st).1.cfg.preset = st.cfg.preset ∧
    (configure_step cats "2" none st).1.presetIdx = st.presetIdx := by
  constructor <;> simp [configure_step]

/-- Claim C7: while the active codec lacks the nvenc marker, menu choice 5
is consistently a no-op on the configuration session (it is the
back-to-menu entry); cycling the codec any number of times retains the
stored preset value and preset index unchanged; and while the codec has
the nvenc marker, choice 5 edits the preset, advancing from the retained
index. -/
theorem C7_preset_gating (cats : Catalogs) (st : CState) (k : Nat) :
    (hasNvenc st.cfg.codec = false →
      configure_step cats "5" none st = (st, false, Msg.backToMain)) ∧
    (configure_iter cats "2" k st).cfg.preset = st.cfg.preset ∧
    (configure_iter cats "2" k st).presetIdx = st.presetIdx ∧
    (hasNvenc st.cfg.codec = true →
      (configure_step cats "5" none st).1.cfg.preset
        = some (cats.nvenc_presets.getD
            ((st.presetIdx + 1) % cats.nvenc_presets.length) "")) := by
  refine ⟨?_, ?_, ?_, ?_⟩
  · intro h
    simp [configure_step, h]
  · induction k generalizing st with
    | zero => rfl
    | succ n ih =>
        calc (configure_iter cats "2" (n + 1) st).cfg.preset
            = (configure_step cats "2" none st).1.cfg.preset :=
              ih (configure_step cats "2" none st).1
          _ = st.cfg.preset :=
              (configure_step_codec_preserves_preset cats st).1
  · induction k generalizing st with
    | zero => rfl
    | succ n ih =>
        calc (configure_iter cats "2" (n + 1) st).presetIdx
            = (configure_step cats "2" none st).1.presetIdx :=
              ih (configure_step cats "2" none st).1
          _ = st.presetIdx :=
              (configure_step_codec_preserves_preset cats st).2
  · intro h
    simp [configure_step, h]

/-- Witness for C7: with libx264 active, choice 5 is the no-op back entry
and two codec cycles retain the preset; with h264_nvenc active, choice 5
advances the preset from medium to fast. -/
theorem C7_preset_gating_witness :
    configure_step sampleCats "5" none sampleSwCState
      = (sampleSwCState, false, Msg.backToMain) ∧
    (configure_iter sampleCats "2" 2 sampleSwCState).cfg.preset
      = sampleSwCState.cfg.preset ∧
    (configure_step sampleCats "5" none sampleCState).1.cfg.preset
      = some "fast" := by
  refine ⟨(C7_preset_gating sampleCats sampleSwCState 2).1 (by decide),
          (C7_preset_gating sampleCats sampleSwCState 2).2.1,
          ?_⟩
  have h := (C7_preset_gating sampleCats sampleCState 2).2.2.2 (by decide)
  exact h.trans (by decide)

/-- Claim C9: every `configure_settings` menu iteration, for every choice
and FPS input, passes the recording session (the is_recording flag, the
recording start time and the active capture snapshot) through unchanged,
and its effect on the configuration session is the same whatever the
recording session is, so configuration editing is legal in both Idle and
Recording and never affects the already-running capture. -/
theorem C9_config_ops_preserve_session (cats : Catalogs) (choice : String)
    (inp : Option Int) (a : AppState) (s' : RecState) :
    (configure_full cats choice inp a).1.sess = a.sess ∧
    (configure_full cats choice inp { sess := s', conf := a.conf }).1.conf
      = (configure_full cats choice inp a).1.conf := by
  exact ⟨rfl, rfl⟩

/-- Effect of one start call on the recording flag: it stays set while
Recording (the guarded no-op) and otherwise becomes the backend outcome. -/
theorem recStep_start_flag (config : Config) (ok : Bool) (now : Nat)
    (s : RecState) :
    ((start_recording config ok now s).1).is_recording
      = (s.is_recording || ok) := by
  cases hb : s.is_recording <;> cases ok <;> simp [start_recording, hb]

/-- Effect of one stop call on the recording flag: it is always cleared
(either by the transition or because it was already clear). -/
theorem recStep_stop_flag (ok : Bool) (s : RecState) :
    ((stop_recording ok s).1).is_recording = false := by
  cases hb : s.is_recording <;> simp [stop_recording, hb]

/-- Claim C1: after any finite start/stop call sequence from the initial
Idle session, the session is Recording exactly when the most recent call
was a successful start not yet followed by a stop, and Idle otherwise. -/
theorem C1_state_after_call_sequence (config : Config) (evts : List Event) :
    (runEvents config evts).is_recording = specRecordingAfter evts := by
  refine List.reverseRecOn evts rfl ?_
  intro l e ih
  have hfold : runEvents config (l ++ [e])
      = recStep config (runEvents config l) e := by
    simp [runEvents, List.foldl_append]
  have hrev : specRecordingAfter (l ++ [e])
      = lastOpenStart (e :: l.reverse) := by
    simp [specRecordingAfter]
  rw [hfold, hrev]
  cases e with
  | startCall ok now =>
      have : lastOpenStart (Event.startCall ok now :: l.reverse)
          = (ok || specRecordingAfter l) := rfl
      rw [this, ← ih]
      simpa [recStep, recStep_start_flag] using Bool.or_comm _ _
  | stopCall ok =>
      have : lastOpenStart (Event.stopCall ok :: l.reverse) = false := rfl
      rw [this, recStep, recStep_stop_flag]

/-- The default resolution used for out-of-range catalog reads in the
embedding (the source would raise there; it is never reached under the
hypotheses below). -/
def defRes : Resolution := { width := 0, height := 0 }

/-- When `a` occurs in `l`, `firstIndexOf?` finds a position that is in
range and reads back `a`. -/
theorem firstIndexOf?_spec {α : Type} [DecidableEq α] (d : α) :
    ∀ (l : List α) (a : α), a ∈ l →
      ∃ i, firstIndexOf? l a = some i ∧ i < l.length ∧ l.getD i d = a := by
  intro l
  induction l with
  | nil => intro a h; simp at h
  | cons x rest ih =>
      intro a h
      by_cases hx : x = a
      · exact ⟨0, by simp [firstIndexOf?, hx], by simp, by simp [hx]⟩
      · have ha : a ∈ rest := by
          rcases List.mem_cons.mp h with h1 | h2
          · exact absurd h1.symm hx
          · exact h2
        obtain ⟨i, hfi, hlt, hget⟩ := ih a ha
        refine ⟨i + 1, ?_, ?_, ?_⟩
        · simp [firstIndexOf?, hx, hfi]
        · simpa using Nat.succ_lt_succ hlt
        · simpa using hget

/-- Resolution index after one choice-1 iteration. -/
theorem step1_resIdx (cats : Catalogs) (st : CState) :
    (configure_step cats "1" none st).1.resIdx
      = (st.resIdx + 1) % cats.resolutions.length := by
  simp [configure_step]

/-- Resolution value after one choice-1 iteration. -/
theorem step1_resolution (cats : Catalogs) (st : CState) :
    (configure_step cats "1" none st).1.cfg.resolution
      = cats.resolutions.getD ((st.resIdx + 1) % cats.resolutions.length)
          defRes := by
  simp [configure_step, defRes]

/-- A choice-1 iteration persists the updated configuration immediately. -/
theorem step1_store (cats : Catalogs) (st : CState) :
    (configure_step cats "1" none st).1.store
      = save_configuration (configure_step cats "1" none st).1.cfg := by
  simp [configure_step]

/-- Resolution index after `k` choice-1 iterations: the seed advanced by
`k`, modulo the catalog size. -/
theorem iter1_resIdx (cats : Catalogs) (k : Nat) :
    ∀ st : CState, st.resIdx < cats.resolutions.length →
      (configure_iter cats "1" k st).resIdx
        = (st.resIdx + k) % cats.resolutions.length := by
  induction k with
  | zero =>
      intro st h
      simpa [configure_iter] using (Nat.mod_eq_of_lt h).symm
  | succ n ih =>
      intro st h
      have hN : 0 < cats.resolutions.length :=
        lt_of_le_of_lt (Nat.zero_le _) h
      have hlt : (st.resIdx + 1) % cats.resolutions.length
          < cats.resolutions.length := Nat.mod_lt _ hN
      have h2 := ih (configure_step cats "1" none st).1
        (by rw [step1_resIdx]; exact hlt)
      rw [step1_resIdx] at h2
      calc (configure_iter cats "1" (n + 1) st).resIdx
          = (configure_iter cats "1" n (configure_step cats "1" none st).1).resIdx :=
            rfl
        _ = ((st.resIdx + 1) % cats.resolutions.length + n)
              % cats.resolutions.length := h2
        _ = (st.resIdx + 1 + n) % cats.resolutions.length :=
            Nat.mod_add_mod _ _ _
        _ = (st.resIdx + (n + 1)) % cats.resolutions.length := by
            congr 1
            omega

/-- Choice-1 iterations preserve the invariant that the current resolution
is the catalog entry at the current index. -/
theorem iter1_invariant (cats : Catalogs) (k : Nat) :
    ∀ st : CState, st.resIdx < cats.resolutions.length →
      st.cfg.resolution = cats.resolutions.getD st.resIdx defRes →
      (configure_iter cats "1" k st).cfg.resolution
        = cats.resolutions.getD ((configure_iter cats "1" k st).resIdx)
            defRes := by
  induction k with
  | zero => intro st _ hinv; exact hinv
  | succ n ih =>
      intro st h _
      have hN : 0 < cats.resolutions.length :=
        lt_of_le_of_lt (Nat.zero_le _) h
      exact ih (configure_step cats "1" none st).1
        (by rw [step1_resIdx]; exact Nat.mod_lt _ hN)
        (by rw [step1_resolution, step1_resIdx])

/-- Claim C5: starting from a configuration whose resolution is in the
catalog, cycling the resolution as many times as the catalog has entries
returns the original resolution, and after any single cycle the persisted
record loads back as exactly the configuration the cycle produced. -/
theorem C5_resolution_cycle (cats : Catalogs) (config : Config)
    (store : FileState) (h : config.resolution ∈ cats.resolutions) :
    (configure_iter cats "1" cats.resolutions.length
        (enterConfigure cats config store)).cfg.resolution
      = config.resolution ∧
    load_configuration
        ((configure_step cats "1" none
            (enterConfigure cats config store)).1.store)
      = LoadResult.ok
          ((configure_step cats "1" none
              (enterConfigure cats config store)).1.cfg) := by
  obtain ⟨i, hfi, hlt, hget⟩ :=
    firstIndexOf?_spec defRes cats.resolutions config.resolution h
  have hseed : (enterConfigure cats config store).resIdx = i := by
    simp [enterConfigure, hfi]
  have hinv0 : (enterConfigure cats config store).cfg.resolution
      = cats.resolutions.getD (enterConfigure cats config store).resIdx
          defRes := by
    rw [hseed]
    exact hget.symm
  constructor
  · have hIdx := iter1_resIdx cats cats.resolutions.length
      (enterConfigure cats config store) (by rw [hseed]; exact hlt)
    have hInv := iter1_invariant cats cats.resolutions.length
      (enterConfigure cats config store) (by rw [hseed]; exact hlt) hinv0
    rw [hInv, hIdx, hseed, Nat.add_mod_right, Nat.mod_eq_of_lt hlt]
    exact hget
  · rw [step1_store]
    rfl

/-- Witness for C5: the spec scenario.  The fresh record with resolution
1920x1080 over the three-entry catalog cycles once to 1280x720 with the
record persisted immediately, and three cycles return to 1920x1080. -/
theorem C5_resolution_cycle_witness :
    sampleConfig.resolution ∈ sampleCats.resolutions ∧
    (configure_iter sampleCats "1" 3 sampleCState).cfg.resolution
      = sampleConfig.resolution ∧
    (configure_step sampleCats "1" none sampleCState).1.cfg.resolution
      = { width := 1280, height := 720 } ∧
    (configure_step sampleCats "1" none sampleCState).1.store
      = save_configuration
          (configure_step sampleCats "1" none sampleCState).1.cfg := by
  refine ⟨by decide, ?_, by decide, by decide⟩
  exact (C5_resolution_cycle sampleCats sampleConfig
    (save_configuration sampleConfig) (by decide)).1

end Launcher
